import Mathlib

/-!
Shallow embedding of the entity reconstruction and categorization pipeline of
the transcribe-ner repository (src/medical_ner_hf.py and src/app.py), together
with theorems settling the specification claims about it.

Conventions of the embedding:
* Python dicts representing NER entities become the `RawEntity` structure.
  A field read with `d.get(k, default)` becomes an `Option` field consumed
  with `getD`; the string fields `word`, `entity`, `entity_group` are always
  read with default `''`, so a missing field is indistinguishable from `""`
  and they are plain `String` fields.
* Python integers are `Int` (JSON integers are signed and unbounded);
  string slicing `s[a:b]` is embedded with Python's exact semantics,
  including negative-index wrap-around and clamping (`pySlice`).
* The float `score` is only ever copied, never computed with, so it is
  embedded as `Rat` (any type with decidable equality would do).
* The HTTP layer is abstracted as an `HTTPResponse` value carrying the status
  code, the parsed JSON payload, and the raw body text; `requests.post`
  becomes a parameter of that type.
-/

/-- Python `str.strip()` whitespace characters (the ASCII ones; the source
text never contains other Unicode whitespace in the claims' scenarios). -/
def isPySpace (c : Char) : Bool :=
  c == ' ' || c == '\t' || c == '\n' || c == '\r' || c == '\x0b' || c == '\x0c'

/-- Characters stripped by `rstrip('.,;:!?')` in the source. -/
def isTrailPunct (c : Char) : Bool :=
  c == '.' || c == ',' || c == ';' || c == ':' || c == '!' || c == '?'

/-- Python `s.strip()`: drop leading and trailing whitespace. -/
def pyStrip (s : String) : String :=
  ⟨((s.data.dropWhile isPySpace).reverse.dropWhile isPySpace).reverse⟩

/-- Python `s.rstrip('.,;:!?')`: drop trailing characters from that set. -/
def pyRstripPunct (s : String) : String :=
  ⟨(s.data.reverse.dropWhile isTrailPunct).reverse⟩

/-- Python slice `s[a:b]` on a string of length `n`: a negative index counts
from the end (then is clamped below at 0), a nonnegative index is clamped
above at `n`; the result is the character range `[a', b')`, empty when
`a' ≥ b'`.  Total: no slice ever raises. -/
def pySlice (s : String) (a b : Int) : String :=
  let n : Int := (s.length : Int)
  let lo : Int := if a < 0 then max (n + a) 0 else min a n
  let hi : Int := if b < 0 then max (n + b) 0 else min b n
  ⟨(s.data.take hi.toNat).drop lo.toNat⟩

/-- Boolean test that `p` is an initial segment of `l`. -/
def listLeads (p l : List Char) : Bool :=
  match p, l with
  | [], _ => true
  | _ :: _, [] => false
  | a :: as, b :: bs => a == b && listLeads as bs

/-- Boolean test that `p` occurs as a contiguous run inside `l`. -/
def listInside (p l : List Char) : Bool :=
  match l with
  | [] => p.isEmpty
  | _ :: rest => listLeads p l || listInside p rest

/-- Python `sub in s` on strings: substring containment. -/
def strContains (sub s : String) : Bool :=
  listInside sub.data s.data

/-- One NER model output unit, as consumed by the pipeline.  Embeds the
Python dict: `word`, `entity`, `entity_group` are read with default `''`;
`startOff`/`endOff` embed the `'start'`/`'end'` keys (`end` is a Lean
keyword), read with `.get('start', 0)` and `.get('end', start)`;
`score` is read with `.get('score', 0)`. -/
structure RawEntity where
  word : String
  entity : String
  entity_group : String
  startOff : Option Int
  endOff : Option Int
  score : Option Rat
deriving DecidableEq, Repr

/-- The value of `entity.get('start', 0)` in the source. -/
def entStart (e : RawEntity) : Int :=
  e.startOff.getD 0

/-- The value of `entity.get('end', start_pos)` in the source, where
`start_pos = entity.get('start', 0)`. -/
def entEnd (e : RawEntity) : Int :=
  e.endOff.getD (entStart e)

/-- One record of the `other` bucket: `{word, type, confidence}`
(src/medical_ner_hf.py lines 159-163). -/
structure OtherRec where
  word : String
  type : String
  confidence : Rat
deriving DecidableEq, Repr

/-- The categorized result dict built by `process_medical_text`
(src/medical_ner_hf.py lines 112-118): four named buckets of cleaned term
strings plus the `other` bucket of records. -/
structure MedicalEntities where
  diseases : List String
  medications : List String
  symptoms : List String
  procedures : List String
  other : List OtherRec
deriving DecidableEq, Repr

/-- The freshly constructed empty result dict. -/
def emptyMedicalEntities : MedicalEntities :=
  ⟨[], [], [], [], []⟩

/-- Inner merge loop of `_reconstruct_entities` (src/medical_ner_hf.py lines
63-75): starting from the current `end_pos`, consume every following entity
whose `start` is at most `end_pos + 2`, extending `end_pos` to
`max(end_pos, next.get('end', next_start))`; return the final `end_pos` and
the unconsumed remainder of the list. -/
def mergeGroup (endPos : Int) : List RawEntity → Int × List RawEntity
  | [] => (endPos, [])
  | e :: rest =>
    if entStart e ≤ endPos + 2 then
      mergeGroup (max endPos (entEnd e)) rest
    else
      (endPos, e :: rest)

/-- The word a merge group is given when its offsets pass the bounds check:
`original_text[start_pos:end_pos].strip().rstrip('.,;:!?')`
(src/medical_ner_hf.py lines 79-81). -/
def renderWord (text : String) (s e : Int) : String :=
  pyRstripPunct (pyStrip (pySlice text s e))

/-- The entity `_reconstruct_entities` appends for a finished merge group
(src/medical_ner_hf.py lines 77-84): the group's first fragment, its `word`
replaced by the rendered substring exactly when
`start_pos < len(original_text) and end_pos <= len(original_text)`; every
other field of the first fragment is kept (`current = entities[i].copy()`
mutated only at `'word'`). -/
def renderEnt (text : String) (e : RawEntity) (endPos : Int) : RawEntity :=
  if entStart e < (text.length : Int) ∧ endPos ≤ (text.length : Int) then
    { e with word := renderWord text (entStart e) endPos }
  else e

/-- The two nested `while` loops of `_reconstruct_entities`
(src/medical_ner_hf.py lines 55-85) as one left-to-right scan.  The state is
the current group's first fragment `first` (the source's `current`) and the
merged `end_pos`.  Meeting an entity within the gap threshold
(`next_start <= end_pos + 2`) extends `end_pos` by `max` with the next
entity's end, exactly as the inner loop does; otherwise the finished group is
emitted via `renderEnt` and a new group starts at that entity (`i = j`); the
end of the input emits the final group. -/
def reconstructAux (text : String) (first : RawEntity) (endPos : Int) :
    List RawEntity → List RawEntity
  | [] => [renderEnt text first endPos]
  | e :: rest =>
    if entStart e ≤ endPos + 2 then
      reconstructAux text first (max endPos (entEnd e)) rest
    else
      renderEnt text first endPos :: reconstructAux text e (entEnd e) rest

/-- Embedding of `_reconstruct_entities(entities, original_text)`
(src/medical_ner_hf.py lines 45-87): empty input is returned as is; otherwise
the scan starts with the first entity as the open group, with
`end_pos = entity.get('end', start_pos)`. -/
def reconstruct_entities (text : String) : List RawEntity → List RawEntity
  | [] => []
  | e :: rest => reconstructAux text e (entEnd e) rest

/-- The `entity_category_map` dict (src/medical_ner_hf.py lines 121-129), as
the ordered association list Python 3.7+ dict iteration yields. -/
def entity_category_map : List (String × String) :=
  [("DISEASE", "diseases"),
   ("DRUG", "medications"),
   ("SYMPTOM", "symptoms"),
   ("PROCEDURE", "procedures"),
   ("Diagnostic_procedure", "procedures"),
   ("Medication", "medications"),
   ("Sign_symptom", "symptoms")]

/-- The `for key, value in ...items(): if key in entity_group: category =
value; break` loop shape shared by both source files: scan an association
list in order and return the value of the first key contained in the label. -/
def lookupIn (map : List (String × String)) (label : String) : Option String :=
  match map with
  | [] => none
  | kv :: rest => if strContains kv.1 label then some kv.2 else lookupIn rest label

/-- The category lookup loop (src/medical_ner_hf.py lines 147-151): iterate
`entity_category_map` in declared order and return the value of the first key
contained in the label (`if key in entity_group`), or `none`. -/
def lookup_category (label : String) : Option String :=
  lookupIn entity_category_map label

/-- The label the aggregation loop computes:
`entity.get('entity', '') or entity.get('entity_group', '')`
(Python `or`: the `entity` field when non-empty, else `entity_group`). -/
def entLabel (e : RawEntity) : String :=
  if e.entity ≠ "" then e.entity else e.entity_group

/-- The cleaned word: `entity_word.strip().rstrip('.,;:!?')`
(src/medical_ner_hf.py line 140). -/
def cleanWord (w : String) : String :=
  pyRstripPunct (pyStrip w)

/-- Append `w` to named bucket `cat` of `m` unless already present
(src/medical_ner_hf.py lines 153-156: `if clean_word not in
medical_entities[category]: medical_entities[category].append(clean_word)`).
`lookup_category` only ever produces the four bucket names, so the final
branch is unreachable from the pipeline. -/
def addNamed (m : MedicalEntities) (cat w : String) : MedicalEntities :=
  if cat = "diseases" then
    if w ∈ m.diseases then m else { m with diseases := m.diseases ++ [w] }
  else if cat = "medications" then
    if w ∈ m.medications then m else { m with medications := m.medications ++ [w] }
  else if cat = "symptoms" then
    if w ∈ m.symptoms then m else { m with symptoms := m.symptoms ++ [w] }
  else if cat = "procedures" then
    if w ∈ m.procedures then m else { m with procedures := m.procedures ++ [w] }
  else m

/-- One iteration of the aggregation loop of `process_medical_text`
(src/medical_ner_hf.py lines 131-163): skip when the word or the label is
empty, clean the word, skip when the cleaned word is shorter than 2, then
either append to the mapped named bucket with dedup, or append a
`{word, type, confidence}` record to `other` unconditionally. -/
def categorize_step (m : MedicalEntities) (e : RawEntity) : MedicalEntities :=
  if e.word = "" ∨ entLabel e = "" then m
  else
    if (cleanWord e.word).length < 2 then m
    else
      match lookup_category (entLabel e) with
      | some cat => addNamed m cat (cleanWord e.word)
      | none =>
        { m with other := m.other ++ [⟨cleanWord e.word, entLabel e, e.score.getD 0⟩] }

/-- The whole aggregation loop, folded over the processed entity list
starting from the freshly built empty result dict. -/
def categorize_entities (es : List RawEntity) : MedicalEntities :=
  es.foldl categorize_step emptyMedicalEntities

/-- Parsed JSON payload of the extraction gateway's 200 response, split by
how the two source files treat it: a list of entities; a dict carrying an
`"error"` key (whose value is the carried message); an empty iterable that is
not a list (the empty dict `{}` or the empty string, over which a Python
`for` loop runs zero iterations); or any other non-list shape (a non-empty
dict without `"error"`, a non-empty string, a number, ...), over which
iterating raises. -/
inductive NERPayload where
  | entities (es : List RawEntity)
  | errorDict (msg : String)
  | emptyIterable
  | otherJson
deriving DecidableEq, Repr

/-- Abstraction of the `requests.post` response consumed by
`extract_entities`: HTTP status code, parsed JSON body, raw body text. -/
structure HTTPResponse where
  status : Nat
  jsonBody : NERPayload
  text : String
deriving DecidableEq, Repr

/-- Embedding of `extract_entities` (src/medical_ner_hf.py lines 16-43):
on a 200 response return the parsed JSON; on any other status print the
status and raw body (side effect outside the embedding) and return `None`. -/
def extract_entities (resp : HTTPResponse) : Option NERPayload :=
  if resp.status = 200 then some resp.jsonBody else none

/-- Result of `process_medical_text`: either the error dict
`{"error": msg}` or the categorized entity dict. -/
inductive ProcessResult where
  | error (msg : String)
  | ok (m : MedicalEntities)
deriving DecidableEq, Repr

/-- Embedding of `process_medical_text(transcription)`
(src/medical_ner_hf.py lines 89-165), with the gateway response passed in:
`None` from `extract_entities` yields the fixed API-error dict; a dict
payload with an `"error"` key yields the `API Error: ...` dict; any other
non-list payload yields the unexpected-format dict; a list payload is span
reconstructed against the transcription and then categorized. -/
def process_medical_text (transcription : String) (resp : HTTPResponse) :
    ProcessResult :=
  match extract_entities resp with
  | none => .error "Failed to extract entities - API error"
  | some (.errorDict msg) => .error ("API Error: " ++ msg)
  | some .emptyIterable => .error "Unexpected API response format"
  | some .otherJson => .error "Unexpected API response format"
  | some (.entities raw) =>
    .ok (categorize_entities (reconstruct_entities transcription raw))

/-- The `entity_category_map` dict of `extract_medical_entities`
(src/app.py lines 84-92); declared identically to the one in
src/medical_ner_hf.py but embedded separately to compare the two files. -/
def app_entity_category_map : List (String × String) :=
  [("DISEASE", "diseases"),
   ("DRUG", "medications"),
   ("SYMPTOM", "symptoms"),
   ("PROCEDURE", "procedures"),
   ("Diagnostic_procedure", "procedures"),
   ("Medication", "medications"),
   ("Sign_symptom", "symptoms")]

/-- Category lookup loop of src/app.py lines 111-115. -/
def app_lookup_category (label : String) : Option String :=
  lookupIn app_entity_category_map label

/-- One iteration of the entity loop of `extract_medical_entities`
(src/app.py lines 94-127); note the loop runs directly on the raw
entities from the response, with no span reconstruction step. -/
def app_categorize_step (m : MedicalEntities) (e : RawEntity) : MedicalEntities :=
  if e.word = "" ∨ entLabel e = "" then m
  else
    if (cleanWord e.word).length < 2 then m
    else
      match app_lookup_category (entLabel e) with
      | some cat => addNamed m cat (cleanWord e.word)
      | none =>
        { m with other := m.other ++ [⟨cleanWord e.word, entLabel e, e.score.getD 0⟩] }

/-- The whole entity loop of `extract_medical_entities` over the raw
(unreconstructed) entity list. -/
def app_categorize_entities (es : List RawEntity) : MedicalEntities :=
  es.foldl app_categorize_step emptyMedicalEntities

/-- Result of `extract_medical_entities` in src/app.py:
`{"success": True, "data": ...}` or
`{"success": False, "error": ..., "details": ...}`. -/
inductive AppResult where
  | success (data : MedicalEntities)
  | failure (error details : String)
deriving DecidableEq, Repr

/-- Embedding of `extract_medical_entities(text)` (src/app.py lines 61-144)
with the gateway response passed in.  On 200 with a list payload the raw
entities are categorized directly (no reconstruction).  On 200 with an empty
iterable payload (`{}` or `""`) the `for` loop runs zero iterations and the
function returns success with the freshly built empty buckets.  On 200 with
any other non-list payload the loop raises (iterating a non-empty dict or
string yields strings, which have no `.get`; a number is not iterable) and
the `except` clause returns the failure dict — the `details` string stands
in schematically for `str(e)`.  On any other status the failure carries the
status code and raw body. -/
def extract_medical_entities (resp : HTTPResponse) : AppResult :=
  if resp.status = 200 then
    match resp.jsonBody with
    | .entities raw => .success (app_categorize_entities raw)
    | .errorDict _ => .failure "Failed to extract medical entities" "exception"
    | .emptyIterable => .success emptyMedicalEntities
    | .otherJson => .failure "Failed to extract medical entities" "exception"
  else
    .failure ("Hugging Face API error: " ++ toString resp.status) resp.text

/-- Specification-side grouping (from §4.1 of the spec, for claim C6):
starting from the current merged `endPos`, collect the maximal run of
following entities each of whose `start` is at most the current merged end
plus 2, extending the merged end by `max` with each member's end; return the
run and the remainder.  Same grouping as `mergeGroup`, but keeping the
members so the group is explicit. -/
def specRun (endPos : Int) : List RawEntity → List RawEntity × List RawEntity
  | [] => ([], [])
  | e :: rest =>
    if entStart e ≤ endPos + 2 then
      ((e :: (specRun (max endPos (entEnd e)) rest).1),
       (specRun (max endPos (entEnd e)) rest).2)
    else
      ([], e :: rest)

/-- The merged end of a group per the spec: the first fragment's end extended
by `max` with each later member's end in turn. -/
def specGroupEnd (e : RawEntity) (g : List RawEntity) : Int :=
  g.foldl (fun acc x => max acc (entEnd x)) (entEnd e)

theorem specRun_snd_length (endPos : Int) (l : List RawEntity) :
    (specRun endPos l).2.length ≤ l.length := by
  induction l generalizing endPos with
  | nil => simp [specRun]
  | cons e rest ih =>
    simp only [specRun]
    split
    · exact le_trans (ih _) (Nat.le_succ _)
    · exact le_refl _

/-- Specification-side Span Reconstructor (spec §4.1, as amended for claim
C6): split off each merge group in input order; the group's output entity is
its first fragment, with the word replaced by the rendered substring of the
original text over the group's `[start, end)` span whenever that span passes
the bounds check. -/
def spec_reconstruct (text : String) : List RawEntity → List RawEntity
  | [] => []
  | e :: rest =>
    (if entStart e < (text.length : Int) ∧
        specGroupEnd e (specRun (entEnd e) rest).1 ≤ (text.length : Int) then
      { e with word := renderWord text (entStart e) (specGroupEnd e (specRun (entEnd e) rest).1) }
    else e) :: spec_reconstruct text (specRun (entEnd e) rest).2
termination_by l => l.length
decreasing_by
  have h := specRun_snd_length (entEnd e) rest
  simp only [List.length_cons]
  omega

/-- Ascending sortedness by `start`, the precondition §4.1 states for the
Span Reconstructor's input. -/
def sortedByStart (l : List RawEntity) : Prop :=
  l.Pairwise (fun a b => entStart a ≤ entStart b)

instance (l : List RawEntity) : Decidable (sortedByStart l) := by
  unfold sortedByStart
  exact List.instDecidablePairwise l

/-- The four named buckets, addressed by the category name string the map
produces (the `medical_entities[category]` lookup); unknown names give the
empty list. -/
def namedBucket (m : MedicalEntities) (cat : String) : List String :=
  if cat = "diseases" then m.diseases
  else if cat = "medications" then m.medications
  else if cat = "symptoms" then m.symptoms
  else if cat = "procedures" then m.procedures
  else []

/-- All four named buckets are duplicate-free. -/
def bucketsNodup (m : MedicalEntities) : Prop :=
  m.diseases.Nodup ∧ m.medications.Nodup ∧ m.symptoms.Nodup ∧ m.procedures.Nodup

instance (m : MedicalEntities) : Decidable (bucketsNodup m) := by
  unfold bucketsNodup
  infer_instance

theorem nodup_append_single {α : Type} (l : List α) (a : α)
    (h : l.Nodup) (ha : a ∉ l) : (l ++ [a]).Nodup := by
  rw [List.nodup_append]
  exact ⟨h, List.nodup_singleton a,
    fun x hx hmem => ha ((List.mem_singleton.mp hmem) ▸ hx)⟩

theorem addNamed_nodup (m : MedicalEntities) (cat w : String)
    (h : bucketsNodup m) : bucketsNodup (addNamed m cat w) := by
  obtain ⟨h1, h2, h3, h4⟩ := h
  unfold addNamed bucketsNodup
  split_ifs with hc1 hm1 hc2 hm2 hc3 hm3 hc4 hm4 <;>
    simp_all <;>
    exact nodup_append_single _ _ (by assumption) (by assumption)

theorem categorize_step_nodup (m : MedicalEntities) (e : RawEntity)
    (h : bucketsNodup m) : bucketsNodup (categorize_step m e) := by
  unfold categorize_step
  split_ifs with h1 h2
  · exact h
  · exact h
  · cases hl : lookup_category (entLabel e) with
    | some cat =>
      simp only [hl]
      exact addNamed_nodup m cat _ h
    | none =>
      simp only [hl]
      exact h

theorem foldl_categorize_nodup (es : List RawEntity) :
    ∀ m : MedicalEntities, bucketsNodup m →
      bucketsNodup (es.foldl categorize_step m) := by
  induction es with
  | nil => intro m h; exact h
  | cons e rest ih => intro m h; exact ih _ (categorize_step_nodup m e h)

theorem categorize_entities_nodup (es : List RawEntity) :
    bucketsNodup (categorize_entities es) :=
  foldl_categorize_nodup es emptyMedicalEntities
    ⟨List.nodup_nil, List.nodup_nil, List.nodup_nil, List.nodup_nil⟩

theorem mergeGroup_eq_specRun (p : Int) (l : List RawEntity) :
    mergeGroup p l =
      ((specRun p l).1.foldl (fun acc x => max acc (entEnd x)) p,
       (specRun p l).2) := by
  induction l generalizing p with
  | nil => simp [mergeGroup, specRun]
  | cons e rest ih =>
    simp only [mergeGroup, specRun]
    by_cases h : entStart e ≤ p + 2
    · rw [if_pos h, if_pos h, ih (max p (entEnd e))]
      simp [List.foldl_cons]
    · rw [if_neg h, if_neg h]
      rfl

theorem reconstructAux_eq (text : String) (l : List RawEntity) :
    ∀ (first : RawEntity) (p : Int),
      reconstructAux text first p l =
        renderEnt text first (mergeGroup p l).1 ::
          spec_reconstruct text (mergeGroup p l).2 := by
  induction l with
  | nil =>
    intro first p
    show [renderEnt text first p] = renderEnt text first p :: spec_reconstruct text []
    rw [spec_reconstruct]
  | cons e rest ih =>
    intro first p
    simp only [reconstructAux, mergeGroup]
    by_cases h : entStart e ≤ p + 2
    · rw [if_pos h, if_pos h, ih]
    · rw [if_neg h, if_neg h]
      congr 1
      rw [ih e (entEnd e), spec_reconstruct, mergeGroup_eq_specRun]
      rfl

theorem spec_reconstruct_eq (text : String) (l : List RawEntity) :
    spec_reconstruct text l = reconstruct_entities text l := by
  cases l with
  | nil =>
    rw [spec_reconstruct]
    rfl
  | cons e rest =>
    show spec_reconstruct text (e :: rest) = reconstructAux text e (entEnd e) rest
    rw [reconstructAux_eq text rest e (entEnd e), spec_reconstruct,
      mergeGroup_eq_specRun]
    rfl

/-- C7: the Category Mapper scans the CategoryMap entries in their declared
order (DISEASE, DRUG, SYMPTOM, PROCEDURE, Diagnostic_procedure, Medication,
Sign_symptom) and returns the bucket of the first key occurring as a
substring of the label, or none when no key matches; in particular
"Sign_symptom" maps to symptoms and "B-DISEASE" maps to diseases. -/
theorem c7_category_mapper :
    lookup_category "Sign_symptom" = some "symptoms" ∧
    lookup_category "B-DISEASE" = some "diseases" ∧
    ∀ label : String,
      lookup_category label =
        (if strContains "DISEASE" label then some "diseases"
         else if strContains "DRUG" label then some "medications"
         else if strContains "SYMPTOM" label then some "symptoms"
         else if strContains "PROCEDURE" label then some "procedures"
         else if strContains "Diagnostic_procedure" label then some "procedures"
         else if strContains "Medication" label then some "medications"
         else if strContains "Sign_symptom" label then some "symptoms"
         else none) :=
  ⟨by decide, by decide, fun _ => rfl⟩

/-- C9: an entity with an empty word, or with both label fields empty, or
whose cleaned word (whitespace-stripped then trailing `.,;:!?` stripped) is
shorter than 2 characters, leaves the aggregation state untouched — it
contributes nothing to any bucket and raises no error. -/
theorem c9_degenerate_dropped (m : MedicalEntities) (e : RawEntity)
    (h : e.word = "" ∨ (e.entity = "" ∧ e.entity_group = "") ∨
         (cleanWord e.word).length < 2) :
    categorize_step m e = m := by
  unfold categorize_step
  rcases h with h | h | h
  · rw [if_pos (Or.inl h)]
  · rw [if_pos (Or.inr (by simp [entLabel, h.1, h.2]))]
  · by_cases h0 : e.word = "" ∨ entLabel e = ""
    · rw [if_pos h0]
    · rw [if_neg h0, if_pos h]

/-- Witness for C9: the entity with word "a." (cleaned to the 1-character
word "a") is dropped from the empty aggregation state. -/
theorem c9_degenerate_dropped_witness :
    (cleanWord "a.").length < 2 ∧
    categorize_step emptyMedicalEntities ⟨"a.", "DISEASE", "", none, none, none⟩ =
      emptyMedicalEntities :=
  ⟨by decide,
   c9_degenerate_dropped emptyMedicalEntities ⟨"a.", "DISEASE", "", none, none, none⟩
     (by decide)⟩

/-- C10: a 200 gateway response whose JSON payload is the empty entity list
is a success, not an error: `process_medical_text` returns the categorized
set with all five buckets empty. -/
theorem c10_empty_entities_ok (transcription body : String) :
    process_medical_text transcription ⟨200, .entities [], body⟩ =
      .ok ⟨[], [], [], [], []⟩ :=
  rfl

/-- C5 (amended): for every gateway response with a non-200 status,
`process_medical_text` returns the structured failure value (not a
categorized set) — so the Entity Aggregator is never invoked — but the
failure is the fixed message `"Failed to extract entities - API error"`;
the upstream status code and raw body are only printed inside
`extract_entities`, not carried in the returned value. -/
theorem c5_upstream_failure (transcription : String) (resp : HTTPResponse)
    (h : resp.status ≠ 200) :
    process_medical_text transcription resp =
      .error "Failed to extract entities - API error" := by
  unfold process_medical_text extract_entities
  rw [if_neg h]

/-- Witness for C5: a 503 response yields the fixed failure value. -/
theorem c5_upstream_failure_witness :
    (503 : Nat) ≠ 200 ∧
    process_medical_text "Patient has hypertension."
        ⟨503, .otherJson, "Service Unavailable"⟩ =
      .error "Failed to extract entities - API error" :=
  ⟨by decide, c5_upstream_failure _ _ (by decide)⟩

/-- Counterexample to C5 as stated: the failure value for a 503 response
with body "Service Unavailable" is the same fixed message as for a 404 with
a different body, and that message contains neither the status code nor the
body — the returned value carries no upstream diagnostic detail. -/
theorem c5_fixed_error_counterexample :
    process_medical_text "t" ⟨503, .otherJson, "Service Unavailable"⟩ =
      .error "Failed to extract entities - API error" ∧
    process_medical_text "t" ⟨404, .entities [], "Not Found"⟩ =
      .error "Failed to extract entities - API error" ∧
    strContains "503" "Failed to extract entities - API error" = false ∧
    strContains "Service Unavailable" "Failed to extract entities - API error"
      = false := by
  decide

/-- C3 (amended): whenever a merge group's start is at or beyond the text
length, or its computed merged end exceeds the text length, the emitted
entity is the group's first fragment unchanged (its own word kept); the
embedding is a total function, so no slice or indexing error can occur.
(The source's bounds check is `start_pos < len and end_pos <= len`; a
negative start passes it and still reassigns the word, see the
counterexample.) -/
theorem c3_oob_keeps_word (text : String) (e : RawEntity) (rest : List RawEntity)
    (h : (text.length : Int) ≤ entStart e ∨
         (text.length : Int) < (mergeGroup (entEnd e) rest).1) :
    (reconstruct_entities text (e :: rest)).head? = some e := by
  show (reconstructAux text e (entEnd e) rest).head? = some e
  rw [reconstructAux_eq]
  show some (renderEnt text e (mergeGroup (entEnd e) rest).1) = some e
  unfold renderEnt
  rw [if_neg]
  intro hc
  rcases h with h | h <;> rcases hc with ⟨h1, h2⟩ <;> omega

/-- Witness for C3: an entity whose span `[9, 12)` lies beyond the 4-character
text is kept verbatim. -/
theorem c3_oob_keeps_word_witness :
    (("abcd".length : Int) ≤ entStart ⟨"xy", "DISEASE", "", some 9, some 12, none⟩ ∨
     ("abcd".length : Int) <
       (mergeGroup (entEnd ⟨"xy", "DISEASE", "", some 9, some 12, none⟩) []).1) ∧
    (reconstruct_entities "abcd" [⟨"xy", "DISEASE", "", some 9, some 12, none⟩]).head? =
      some ⟨"xy", "DISEASE", "", some 9, some 12, none⟩ :=
  ⟨by decide, c3_oob_keeps_word _ _ _ (by decide)⟩

/-- Counterexample to C3 as stated: the fragment with `start = -3`,
`end = 2` has its start outside `[0, len("abcd")]`, yet the substring
assignment is not skipped: Python slicing interprets the negative start as
`len - 3 = 1`, and the word is rewritten from "xy" to "b". -/
theorem c3_negative_start_counterexample :
    entStart ⟨"xy", "DISEASE", "", some (-3), some 2, none⟩ < 0 ∧
    reconstruct_entities "abcd" [⟨"xy", "DISEASE", "", some (-3), some 2, none⟩] =
      [⟨"b", "DISEASE", "", some (-3), some 2, none⟩] ∧
    ("b" : String) ≠ "xy" := by
  decide

/-- C4 (amended): in every categorized set the pipeline returns, each of the
four named buckets is individually duplicate-free; a term can however appear
in two different named buckets (see the counterexample), since the dedup
check only consults the bucket the current entity maps to. -/
theorem c4_bucket_nodup (transcription : String) (resp : HTTPResponse)
    (m : MedicalEntities) (h : process_medical_text transcription resp = .ok m) :
    m.diseases.Nodup ∧ m.medications.Nodup ∧ m.symptoms.Nodup ∧
      m.procedures.Nodup := by
  unfold process_medical_text at h
  split at h <;> try exact ProcessResult.noConfusion h
  injection h with h'
  subst h'
  exact categorize_entities_nodup _

/-- Witness for C4: the result for the two-label aspirin input is a
categorized set whose four buckets are each duplicate-free. -/
theorem c4_bucket_nodup_witness :
    process_medical_text "aspirin and aspirin!"
        ⟨200, .entities [⟨"aspirin", "DRUG", "", some 0, some 7, none⟩,
                         ⟨"aspirin", "DISEASE", "", some 12, some 19, none⟩], ""⟩ =
      .ok ⟨["aspirin"], ["aspirin"], [], [], []⟩ ∧
    ((MedicalEntities.mk ["aspirin"] ["aspirin"] [] [] []).diseases.Nodup ∧
     (MedicalEntities.mk ["aspirin"] ["aspirin"] [] [] []).medications.Nodup ∧
     (MedicalEntities.mk ["aspirin"] ["aspirin"] [] [] []).symptoms.Nodup ∧
     (MedicalEntities.mk ["aspirin"] ["aspirin"] [] [] []).procedures.Nodup) :=
  ⟨by decide,
   c4_bucket_nodup "aspirin and aspirin!"
     ⟨200, .entities [⟨"aspirin", "DRUG", "", some 0, some 7, none⟩,
                      ⟨"aspirin", "DISEASE", "", some 12, some 19, none⟩], ""⟩
     (MedicalEntities.mk ["aspirin"] ["aspirin"] [] [] []) (by decide)⟩

/-- Counterexample to C4 as stated: the same term "aspirin", reported once
with label DRUG and once with label DISEASE, ends up in both the
medications and the diseases buckets of the final categorized set. -/
theorem c4_cross_bucket_counterexample :
    process_medical_text "aspirin and aspirin!"
        ⟨200, .entities [⟨"aspirin", "DRUG", "", some 0, some 7, none⟩,
                         ⟨"aspirin", "DISEASE", "", some 12, some 19, none⟩], ""⟩ =
      .ok ⟨["aspirin"], ["aspirin"], [], [], []⟩ ∧
    "aspirin" ∈ (MedicalEntities.mk ["aspirin"] ["aspirin"] [] [] []).diseases ∧
    "aspirin" ∈ (MedicalEntities.mk ["aspirin"] ["aspirin"] [] [] []).medications := by
  decide

/-- C2 (amended): on the scenario's raw entity list over
"Patient has hypertension today." (31 characters) the two fragments are
merged into a single entity, but the merged span `[20, 32)` fails the bounds
check (`32 > 31`), so the entity keeps the first fragment's own word
"hyper" and the final diseases bucket is `["hyper"]`, not
`["hypertension"]`. -/
theorem c2_scenario_amended :
    (mergeGroup (entEnd ⟨"hyper", "DISEASE", "", some 20, some 25, some (mkRat 9 10)⟩)
        [⟨"tension", "DISEASE", "", some 25, some 32, some (mkRat 4 5)⟩]).1 = 32 ∧
    reconstruct_entities "Patient has hypertension today."
        [⟨"hyper", "DISEASE", "", some 20, some 25, some (mkRat 9 10)⟩,
         ⟨"tension", "DISEASE", "", some 25, some 32, some (mkRat 4 5)⟩] =
      [⟨"hyper", "DISEASE", "", some 20, some 25, some (mkRat 9 10)⟩] ∧
    process_medical_text "Patient has hypertension today."
        ⟨200, .entities
          [⟨"hyper", "DISEASE", "", some 20, some 25, some (mkRat 9 10)⟩,
           ⟨"tension", "DISEASE", "", some 25, some 32, some (mkRat 4 5)⟩], ""⟩ =
      .ok ⟨["hyper"], [], [], [], []⟩ := by
  decide

/-- Counterexample to C2 as stated: on the scenario's exact input the final
diseases bucket is ["hyper"], not the claimed ["hypertension"] — the
scenario's offsets do not locate "hypertension" in that text, and the merged
span [20, 32) is out of bounds for the 31-character text. -/
theorem c2_scenario_counterexample :
    process_medical_text "Patient has hypertension today."
        ⟨200, .entities
          [⟨"hyper", "DISEASE", "", some 20, some 25, some (mkRat 9 10)⟩,
           ⟨"tension", "DISEASE", "", some 25, some 32, some (mkRat 4 5)⟩], ""⟩ =
      .ok ⟨["hyper"], [], [], [], []⟩ ∧
    (["hyper"] : List String) ≠ ["hypertension"] := by
  decide

/-- C6 (amended): for every entity list sorted ascending by start and every
text, the Span Reconstructor computes exactly what the spec-side description
formalized by `spec_reconstruct` says: merge groups are the maximal runs in
which each next entity's start is at most the current merged end plus 2,
with the merged end extended to the maximum of the ends seen; a group whose
final start/end pass the bounds check gets the word
`original_text[start:end]` with surrounding whitespace stripped and then
trailing `.,;:!?` stripped (the whitespace strip is the amendment: the claim
omitted it), every other attribute coming from the group's first fragment;
the output has one entity per group in input order and an empty input gives
an empty output. -/
theorem c6_reconstruct_spec (text : String) (l : List RawEntity)
    (_hsorted : sortedByStart l) :
    spec_reconstruct text l = reconstruct_entities text l :=
  spec_reconstruct_eq text l

/-- Witness for C6: the spec-side and source-side reconstructions agree on a
sorted two-fragment input that merges to "hypertension". -/
theorem c6_reconstruct_spec_witness :
    sortedByStart
      [⟨"hyper", "DISEASE", "", some 12, some 17, some (mkRat 9 10)⟩,
       ⟨"tension", "DISEASE", "", some 17, some 24, some (mkRat 4 5)⟩] ∧
    spec_reconstruct "Patient has hypertension today."
        [⟨"hyper", "DISEASE", "", some 12, some 17, some (mkRat 9 10)⟩,
         ⟨"tension", "DISEASE", "", some 17, some 24, some (mkRat 4 5)⟩] =
      reconstruct_entities "Patient has hypertension today."
        [⟨"hyper", "DISEASE", "", some 12, some 17, some (mkRat 9 10)⟩,
         ⟨"tension", "DISEASE", "", some 17, some 24, some (mkRat 4 5)⟩] :=
  ⟨by decide, c6_reconstruct_spec _ _ (by decide)⟩

/-- Counterexample to C6 as stated: for the in-bounds group `[0, 5)` over the
text " ab. ", the claim's word formula — the slice with trailing `.,;:!?`
stripped — yields " ab. " (its last character is a space, which the
trailing-punctuation strip does not remove), but the code first strips
surrounding whitespace and produces "ab". -/
theorem c6_strip_counterexample :
    reconstruct_entities " ab. " [⟨"w", "DISEASE", "", some 0, some 5, none⟩] =
      [⟨"ab", "DISEASE", "", some 0, some 5, none⟩] ∧
    pyRstripPunct (pySlice " ab. " 0 5) = " ab. " ∧
    ("ab" : String) ≠ " ab. " := by
  decide

/-- C8: each named bucket holds a term at most once — a cleaned word already
present (by exact string equality) in its target bucket is not appended
again, and every categorized result has duplicate-free named buckets — while
a record destined for `other` is appended unconditionally, whatever the
current contents of `other`. -/
theorem c8_dedup_behaviour :
    (∀ (m : MedicalEntities) (cat w : String),
      w ∈ namedBucket m cat → addNamed m cat w = m) ∧
    (∀ es : List RawEntity,
      (categorize_entities es).diseases.Nodup ∧
      (categorize_entities es).medications.Nodup ∧
      (categorize_entities es).symptoms.Nodup ∧
      (categorize_entities es).procedures.Nodup) ∧
    (∀ (m : MedicalEntities) (e : RawEntity),
      e.word ≠ "" → entLabel e ≠ "" → ¬ (cleanWord e.word).length < 2 →
      lookup_category (entLabel e) = none →
      (categorize_step m e).other =
        m.other ++ [⟨cleanWord e.word, entLabel e, e.score.getD 0⟩]) := by
  refine ⟨?_, ?_, ?_⟩
  · intro m cat w hmem
    unfold namedBucket at hmem
    unfold addNamed
    split_ifs at hmem ⊢ <;> simp_all
  · intro es
    exact categorize_entities_nodup es
  · intro m e hw hl hlen hnone
    unfold categorize_step
    rw [if_neg (by push_neg; exact ⟨hw, hl⟩), if_neg hlen, hnone]

/-- Witness for C8: "x" already in the diseases bucket is not appended
again, and the unmapped label "MISC" appends its record to `other`
unconditionally. -/
theorem c8_dedup_behaviour_witness :
    ("x" : String) ∈ namedBucket ⟨["x"], [], [], [], []⟩ "diseases" ∧
    addNamed ⟨["x"], [], [], [], []⟩ "diseases" "x" = ⟨["x"], [], [], [], []⟩ ∧
    lookup_category "MISC" = none ∧
    (categorize_step emptyMedicalEntities ⟨"pain", "MISC", "", none, none, none⟩).other =
      emptyMedicalEntities.other ++ [⟨"pain", "MISC", 0⟩] :=
  ⟨by decide, c8_dedup_behaviour.1 _ _ _ (by decide), by decide,
   c8_dedup_behaviour.2.2 emptyMedicalEntities ⟨"pain", "MISC", "", none, none, none⟩
     (by decide) (by decide) (by decide) (by decide)⟩

/-- C1 (amended): the categorization pipeline of `extract_medical_entities`
in src/app.py applies the same category mapping and aggregation as the core
pipeline, but directly to the raw entity list, omitting the Span
Reconstructor; in particular, whenever the reconstructor leaves the raw
entity list unchanged the two pipelines produce the same categorized set.
On inputs the reconstructor does change, the results can differ (see the
counterexample), though they need not. -/
theorem c1_app_omits_reconstruction :
    (∀ es : List RawEntity, app_categorize_entities es = categorize_entities es) ∧
    (∀ (transcription : String) (raw : List RawEntity) (body : String),
      reconstruct_entities transcription raw = raw →
      process_medical_text transcription ⟨200, .entities raw, body⟩ =
        .ok (app_categorize_entities raw)) := by
  constructor
  · intro es
    rfl
  · intro transcription raw body hid
    show ProcessResult.ok (categorize_entities (reconstruct_entities transcription raw)) = _
    rw [hid]
    rfl

/-- Witness for C1: on a single entity whose span reproduces its own word,
reconstruction is the identity and the two pipelines agree. -/
theorem c1_app_omits_reconstruction_witness :
    reconstruct_entities "flu" [⟨"flu", "DISEASE", "", some 0, some 3, none⟩] =
      [⟨"flu", "DISEASE", "", some 0, some 3, none⟩] ∧
    process_medical_text "flu"
        ⟨200, .entities [⟨"flu", "DISEASE", "", some 0, some 3, none⟩], ""⟩ =
      .ok (app_categorize_entities [⟨"flu", "DISEASE", "", some 0, some 3, none⟩]) :=
  ⟨by decide,
   c1_app_omits_reconstruction.2 "flu" [⟨"flu", "DISEASE", "", some 0, some 3, none⟩]
     "" (by decide)⟩

/-- Counterexample to C1 as stated: on the fragment pair locating
"hypertension", src/app.py's pipeline buckets the unmerged fragments
["hyper", "tension"] while the core pipeline of src/medical_ner_hf.py
buckets the reconstructed ["hypertension"]; the two categorized sets
differ. -/
theorem c1_app_vs_core_counterexample :
    extract_medical_entities
        ⟨200, .entities
          [⟨"hyper", "DISEASE", "", some 12, some 17, some (mkRat 9 10)⟩,
           ⟨"tension", "DISEASE", "", some 17, some 24, some (mkRat 4 5)⟩], ""⟩ =
      .success ⟨["hyper", "tension"], [], [], [], []⟩ ∧
    process_medical_text "Patient has hypertension today."
        ⟨200, .entities
          [⟨"hyper", "DISEASE", "", some 12, some 17, some (mkRat 9 10)⟩,
           ⟨"tension", "DISEASE", "", some 17, some 24, some (mkRat 4 5)⟩], ""⟩ =
      .ok ⟨["hypertension"], [], [], [], []⟩ ∧
    (MedicalEntities.mk ["hyper", "tension"] [] [] [] []) ≠
      (MedicalEntities.mk ["hypertension"] [] [] [] []) := by
  decide
